import Mathlib

/-!
Shallow embedding of the conversational intake controller of the chatbot
screen.  The source contains two variants of the screen: a five-question
variant (name, skills, location, years of experience, job type) and a
seven-question variant (name, job role, skills, job level, certification
level, proficiency level, profile count).  React state hooks become an
explicit state record, event handlers become pure state-transition
functions, toast notifications become an explicit list of emitted
notifications, and the asynchronous backend call of the seven-question
variant becomes an oracle parameter describing how the submission
resolved.

The JavaScript string primitives used by the source (`trim`, `length`,
`split(',')`, `includes(',')`, `parseInt`) are modelled by structurally
recursive functions over the character list of a string, so that every
definition evaluates inside the kernel.
-/

/-- JavaScript `String.prototype.trim`: drop whitespace from both ends. -/
def jsTrim (s : String) : String :=
  String.mk (((s.toList.dropWhile Char.isWhitespace).reverse.dropWhile Char.isWhitespace).reverse)

/-- JavaScript `String.prototype.length` (inputs here are ASCII, so code
units and characters coincide). -/
def jsLength (s : String) : Nat :=
  s.toList.length

/-- Split a character list at every occurrence of `sep`; the JS
`"".split(sep)` convention yields `[[]]` on the empty input. -/
def splitCharList (sep : Char) : List Char → List (List Char)
  | [] => [[]]
  | c :: rest =>
    let r := splitCharList sep rest
    if c = sep then [] :: r
    else
      match r with
      | [] => [[c]]
      | h :: t => (c :: h) :: t

/-- JavaScript `String.prototype.split(',')`. -/
def jsSplitComma (s : String) : List String :=
  (splitCharList ',' s.toList).map String.mk

/-- JavaScript `String.prototype.includes(',')` (a one-character needle is
character membership). -/
def jsIncludesComma (s : String) : Bool :=
  s.toList.contains ','

/-- JavaScript `parseInt` on decimal input: skip leading whitespace, read an
optional sign, then the longest run of decimal digits; `none` models `NaN`
(no digits found).  The hexadecimal `0x` corner of `parseInt` is not
modelled; every call site of the source passes trimmed user input that the
surrounding validator treats as decimal. -/
def parseIntJS (s : String) : Option Int :=
  let cs := s.toList.dropWhile Char.isWhitespace
  let signAndRest : Int × List Char :=
    match cs with
    | '-' :: rest => (-1, rest)
    | '+' :: rest => (1, rest)
    | rest => (1, rest)
  let ds := signAndRest.2.takeWhile Char.isDigit
  if ds.isEmpty then none
  else some (signAndRest.1 * ((ds.foldl (fun acc c => 10 * acc + (c.toNat - 48)) 0 : Nat) : Int))

/-- `parseIntJS` applied to the trimmed input yields a value inside the
closed range `[lo, hi]`. -/
def parsesIntInRange (lo hi : Int) (s : String) : Bool :=
  match parseIntJS (jsTrim s) with
  | some v => decide (lo ≤ v ∧ v ≤ hi)
  | none => false

/-- A notification shown to the user; models the `toast.success` and
`toast.error` calls of the source. -/
inductive Toast where
  | success (msg : String)
  | error (msg : String)
deriving DecidableEq

/-- Role of a chat message (the `type` field of `ChatMessage`). -/
inductive Role where
  | bot
  | user
deriving DecidableEq

/-- A message of the conversation log.  `timestamp` is the millisecond clock
value (`Date.now()`); the message id is its decimal rendering, as in the
source. -/
structure ChatMessage where
  id : String
  type : Role
  content : String
  timestamp : Nat
  questionIndex : Option Nat
deriving DecidableEq

/-- A bot message as built by the source (`Date.now()` id, bot role, no
question index). -/
def botMessage (now : Nat) (content : String) : ChatMessage :=
  { id := toString now, type := Role.bot, content := content,
    timestamp := now, questionIndex := none }

/-- JavaScript `Array.prototype.slice(0, n)`: a negative end index counts
from the end of the array, a nonnegative one truncates. -/
def sliceTo {α : Type _} (n : Int) (l : List α) : List α :=
  if n < 0 then l.take (((l.length : Int) + n).toNat) else l.take n.toNat

namespace Seven

/-- Accumulated answers of the seven-question variant
(`Partial<UserData>`): every field starts absent; a numeric field stores
the `parseInt` of the committed answer (`none` would model `NaN`, which no
validated commit produces). -/
structure UserData where
  name : Option String := none
  jobRole : Option String := none
  skills : Option (List String) := none
  jobLevel : Option Int := none
  certificationLevel : Option String := none
  proficiencyLevel : Option String := none
  profileCount : Option Int := none
deriving DecidableEq

/-- A result profile of the seven-question variant. -/
structure MatchProfile where
  id : String
  name : String
  email : String
  experience : String
  img : String
  proficiency : String
  jobLevel : Int
  skills : List String
deriving DecidableEq

def questions : List String :=
  ["What is your name?",
   "What is your current job role?",
   "What are your key skills? (Please list them separated by commas)",
   "Select your job level (1-9):",
   "Select your certification level:",
   "Select your proficiency level:",
   "Select profile count (1-5):"]

def certificationOptions : List String :=
  ["None", "Beginner", "Intermediate", "Professional"]

def proficiencyOptions : List String :=
  ["Beginner", "Intermediate", "Professional"]

/-- Per-slot validation of the seven-question variant. -/
def validateResponse (response : String) (questionIndex : Nat) : Bool :=
  let trimmed := jsTrim response
  match questionIndex with
  | 0 => decide (2 ≤ jsLength trimmed)
  | 1 => decide (2 ≤ jsLength trimmed)
  | 2 => decide (0 < jsLength trimmed)
  | 3 =>
    match parseIntJS trimmed with
    | some level => decide (1 ≤ level ∧ level ≤ 9)
    | none => false
  | 4 => certificationOptions.contains trimmed
  | 5 => proficiencyOptions.contains trimmed
  | 6 =>
    match parseIntJS trimmed with
    | some count => decide (1 ≤ count ∧ count ≤ 5)
    | none => false
  | _ => true

/-- Commit one answer into the accumulator (the seven-question
`processResponse`). -/
def processResponse (response : String) (questionIndex : Nat) (userData : UserData) : UserData :=
  match questionIndex with
  | 0 => { userData with name := some (jsTrim response) }
  | 1 => { userData with jobRole := some (jsTrim response) }
  | 2 => { userData with skills := some (((jsSplitComma response).map jsTrim).filter (fun sk => sk ≠ "")) }
  | 3 => { userData with jobLevel := parseIntJS (jsTrim response) }
  | 4 => { userData with certificationLevel := some (jsTrim response) }
  | 5 => { userData with proficiencyLevel := some (jsTrim response) }
  | 6 => { userData with profileCount := parseIntJS (jsTrim response) }
  | _ => userData

/-- Controller state of the seven-question variant (one field per React
state hook that carries conversation state; the purely presentational
typing flag is omitted, and the source field `matches` is rendered
`foundMatches` because `matches` is a reserved word here). -/
structure ChatState where
  messages : List ChatMessage := []
  currentInput : String := ""
  currentQuestionIndex : Nat := 0
  userData : UserData := {}
  isComplete : Bool := false
  foundMatches : List MatchProfile := []
  isLoading : Bool := false
  editingMessageId : Option String := none
  editValue : String := ""
  showOptions : Bool := false
deriving DecidableEq

def mockSkillsPool : List (List String) :=
  [["React", "JavaScript", "TypeScript"],
   ["Python", "Django", "PostgreSQL"],
   ["Node.js", "Express", "MongoDB"],
   ["Java", "Spring Boot", "MySQL"],
   ["Vue.js", "Nuxt.js", "CSS"],
   ["Angular", "RxJS", "NgRx"],
   ["PHP", "Laravel", "Redis"],
   ["Go", "Docker", "Kubernetes"]]

/-- The fixed built-in fallback sample list (five profiles). -/
def mockProfiles : List MatchProfile :=
  [{ id := "1", name := "Sarah Johnson", email := "sarah.johnson@example.com",
     experience := "5 years",
     img := "https://images.pexels.com/photos/2379004/pexels-photo-2379004.jpeg?auto=compress&cs=tinysrgb&w=150&h=150&fit=crop",
     proficiency := "Professional", jobLevel := 7,
     skills := mockSkillsPool.getD 0 [] },
   { id := "2", name := "Michael Chen", email := "michael.chen@example.com",
     experience := "7 years",
     img := "https://images.pexels.com/photos/1222271/pexels-photo-1222271.jpeg?auto=compress&cs=tinysrgb&w=150&h=150&fit=crop",
     proficiency := "Professional", jobLevel := 8,
     skills := mockSkillsPool.getD 1 [] },
   { id := "3", name := "Emily Rodriguez", email := "emily.rodriguez@example.com",
     experience := "4 years",
     img := "https://images.pexels.com/photos/1239291/pexels-photo-1239291.jpeg?auto=compress&cs=tinysrgb&w=150&h=150&fit=crop",
     proficiency := "Intermediate", jobLevel := 6,
     skills := mockSkillsPool.getD 2 [] },
   { id := "4", name := "David Kim", email := "david.kim@example.com",
     experience := "6 years",
     img := "https://images.pexels.com/photos/1043471/pexels-photo-1043471.jpeg?auto=compress&cs=tinysrgb&w=150&h=150&fit=crop",
     proficiency := "Professional", jobLevel := 7,
     skills := mockSkillsPool.getD 3 [] },
   { id := "5", name := "Lisa Wang", email := "lisa.wang@example.com",
     experience := "3 years",
     img := "https://images.pexels.com/photos/1181686/pexels-photo-1181686.jpeg?auto=compress&cs=tinysrgb&w=150&h=150&fit=crop",
     proficiency := "Intermediate", jobLevel := 5,
     skills := mockSkillsPool.getD 4 [] }]

/-- Content of the confirmation message, citing the number of matches. -/
def successContent (found : Nat) : String :=
  "Perfect! Based on your profile, I found " ++ toString found ++
    " potential matches. Here are professionals who might be great connections for you:"

/-- How the asynchronous submission resolved: the backend call returned a
profile list; the backend call threw (non-2xx response or network failure,
handled by the inner catch, so the mock fallback runs); or an unexpected
exception escaped to the outer catch before any result was installed. -/
inductive SubmitOutcome where
  | ok (profiles : List MatchProfile)
  | backendDown
  | unexpected
deriving DecidableEq

/-- The seven-question `submitUserData`: install the matched profiles (the
backend response, or on backend failure the fixed sample list sliced to the
requested profile count), append the confirmation message and report
success; an unexpected exception only emits the transient error
notification.  `isLoading` is set on entry and cleared in the `finally`
block, hence ends up false. -/
def submitUserData (data : UserData) (oc : SubmitOutcome) (now : Nat) (st : ChatState) :
    ChatState × List Toast :=
  match oc with
  | SubmitOutcome.ok profiles =>
    ({ st with foundMatches := profiles,
               messages := st.messages ++ [botMessage now (successContent profiles.length)],
               isLoading := false },
     [Toast.success "Profile matches found!"])
  | SubmitOutcome.backendDown =>
    let matched :=
      match data.profileCount with
      | some c => sliceTo c mockProfiles
      | none => mockProfiles
    ({ st with foundMatches := matched,
               messages := st.messages ++ [botMessage now (successContent matched.length)],
               isLoading := false },
     [Toast.success "Profile matches found!"])
  | SubmitOutcome.unexpected =>
    ({ st with isLoading := false },
     [Toast.error "Failed to find matches. Please try again."])

/-- The seven-question `handleSubmit`: an input that trims to empty is a
silent no-op; an input failing the current slot validator emits the error
notification and changes nothing; otherwise the user message is appended,
the answer committed, and either the next question index is selected or,
at the last slot, the conversation is flagged complete and submitted. -/
def handleSubmit (now : Nat) (oc : SubmitOutcome) (st : ChatState) : ChatState × List Toast :=
  if jsTrim st.currentInput = "" then (st, [])
  else if validateResponse st.currentInput st.currentQuestionIndex = false then
    (st, [Toast.error "Please provide a valid response"])
  else
    let userMessage : ChatMessage :=
      { id := toString now, type := Role.user, content := st.currentInput,
        timestamp := now, questionIndex := some st.currentQuestionIndex }
    let updated := processResponse st.currentInput st.currentQuestionIndex st.userData
    let st2 : ChatState :=
      { st with messages := st.messages ++ [userMessage], userData := updated,
                currentInput := "", showOptions := false }
    if questions.length - 1 ≤ st.currentQuestionIndex then
      submitUserData updated oc now { st2 with isComplete := true }
    else
      ({ st2 with currentQuestionIndex := st.currentQuestionIndex + 1 }, [])

/-- The seven-question `saveEdit`: an edit value trimming to empty or
failing the recorded slot validator emits the error notification and
mutates nothing; otherwise the matching message content is replaced in
place, the slot recommitted, and edit mode left. -/
def saveEdit (messageId : String) (questionIndex : Option Nat) (st : ChatState) :
    ChatState × List Toast :=
  if jsTrim st.editValue = "" then (st, [Toast.error "Please provide a valid response"])
  else
    match questionIndex with
    | some qi =>
      if validateResponse st.editValue qi = false then
        (st, [Toast.error "Please provide a valid response"])
      else
        ({ st with
             messages := st.messages.map
               (fun msg => if msg.id = messageId then { msg with content := st.editValue } else msg),
             userData := processResponse st.editValue qi st.userData,
             editingMessageId := none, editValue := "" },
         [Toast.success "Response updated!"])
    | none =>
      ({ st with
           messages := st.messages.map
             (fun msg => if msg.id = messageId then { msg with content := st.editValue } else msg),
           editingMessageId := none, editValue := "" },
       [Toast.success "Response updated!"])

/-- A typed view of one accumulator slot, used to state frame conditions
slot by slot. -/
inductive AnswerValue where
  | str (v : String)
  | strList (v : List String)
  | int (v : Int)
deriving DecidableEq

/-- The value held by accumulator slot `i`. -/
def slotOf (userData : UserData) (i : Nat) : Option AnswerValue :=
  if i = 0 then userData.name.map AnswerValue.str
  else if i = 1 then userData.jobRole.map AnswerValue.str
  else if i = 2 then userData.skills.map AnswerValue.strList
  else if i = 3 then userData.jobLevel.map AnswerValue.int
  else if i = 4 then userData.certificationLevel.map AnswerValue.str
  else if i = 5 then userData.proficiencyLevel.map AnswerValue.str
  else if i = 6 then userData.profileCount.map AnswerValue.int
  else none

end Seven

namespace Five

/-- Accumulated answers of the five-question variant (`Partial<UserData>`). -/
structure UserData where
  name : Option String := none
  skills : Option (List String) := none
  location : Option String := none
  yearsExperience : Option Int := none
  jobType : Option String := none
deriving DecidableEq

/-- A result profile of the five-question variant. -/
structure MatchProfile where
  id : String
  photo : String
  name : String
  title : String
  experience : String
  location : String
  skills : List String
deriving DecidableEq

def questions : List String :=
  ["What\x27s your full name?",
   "What are your key technical skills? (separate with commas)",
   "Where are you located? (city, country)",
   "How many years of professional experience do you have?",
   "What type of job role are you seeking? (e.g., Full-time, Contract, Remote)"]

/-- Per-slot validation of the five-question variant. -/
def validateResponse (response : String) (questionIndex : Nat) : Bool :=
  let trimmed := jsTrim response
  match questionIndex with
  | 0 => decide (2 ≤ jsLength trimmed)
  | 1 => decide (0 < jsLength trimmed)
  | 2 => jsIncludesComma trimmed && decide (3 ≤ jsLength trimmed)
  | 3 =>
    match parseIntJS trimmed with
    | some years => decide (0 ≤ years ∧ years ≤ 50)
    | none => false
  | 4 => decide (0 < jsLength trimmed)
  | _ => true

/-- Commit one answer into the accumulator (the five-question
`processResponse`). -/
def processResponse (response : String) (questionIndex : Nat) (userData : UserData) : UserData :=
  match questionIndex with
  | 0 => { userData with name := some (jsTrim response) }
  | 1 => { userData with skills := some (((jsSplitComma response).map jsTrim).filter (fun sk => sk ≠ "")) }
  | 2 => { userData with location := some (jsTrim response) }
  | 3 => { userData with yearsExperience := parseIntJS (jsTrim response) }
  | 4 => { userData with jobType := some (jsTrim response) }
  | _ => userData

/-- Controller state of the five-question variant (the source field
`matches` is rendered `foundMatches` because `matches` is a reserved word
here). -/
structure ChatState where
  messages : List ChatMessage := []
  currentInput : String := ""
  currentQuestionIndex : Nat := 0
  userData : UserData := {}
  isComplete : Bool := false
  foundMatches : List MatchProfile := []
  isLoading : Bool := false
  editingMessageId : Option String := none
  editValue : String := ""
deriving DecidableEq

/-- The fixed mock response of the five-question variant (three profiles,
always used: no real backend call exists in this variant). -/
def mockMatches : List MatchProfile :=
  [{ id := "1",
     photo := "https://images.pexels.com/photos/2379004/pexels-photo-2379004.jpeg?auto=compress&cs=tinysrgb&w=150&h=150&fit=crop",
     name := "Sarah Johnson", title := "Senior Frontend Developer",
     experience := "5 years", location := "San Francisco, CA",
     skills := ["React", "TypeScript", "Node.js"] },
   { id := "2",
     photo := "https://images.pexels.com/photos/1222271/pexels-photo-1222271.jpeg?auto=compress&cs=tinysrgb&w=150&h=150&fit=crop",
     name := "Michael Chen", title := "Full Stack Engineer",
     experience := "7 years", location := "New York, NY",
     skills := ["Python", "React", "AWS"] },
   { id := "3",
     photo := "https://images.pexels.com/photos/1239291/pexels-photo-1239291.jpeg?auto=compress&cs=tinysrgb&w=150&h=150&fit=crop",
     name := "Emily Rodriguez", title := "UX/UI Designer",
     experience := "4 years", location := "Austin, TX",
     skills := ["Figma", "Design Systems", "User Research"] }]

/-- Content of the confirmation message of the five-question variant. -/
def successContent (found : Nat) : String :=
  "Perfect! Based on your profile, I found " ++ toString found ++
    " potential matches. Here are some professionals who might be great connections for you:"

/-- The five-question `submitUserData`: the simulated call always resolves
to the fixed mock list (the `data` argument is ignored by the mock, as in
the source). -/
def submitUserData (_data : UserData) (now : Nat) (st : ChatState) : ChatState × List Toast :=
  ({ st with foundMatches := mockMatches,
             messages := st.messages ++ [botMessage now (successContent mockMatches.length)],
             isLoading := false },
   [Toast.success "Profile matches found!"])

/-- The five-question `handleSubmit` (same structure as the seven-question
one). -/
def handleSubmit (now : Nat) (st : ChatState) : ChatState × List Toast :=
  if jsTrim st.currentInput = "" then (st, [])
  else if validateResponse st.currentInput st.currentQuestionIndex = false then
    (st, [Toast.error "Please provide a valid response"])
  else
    let userMessage : ChatMessage :=
      { id := toString now, type := Role.user, content := st.currentInput,
        timestamp := now, questionIndex := some st.currentQuestionIndex }
    let updated := processResponse st.currentInput st.currentQuestionIndex st.userData
    let st2 : ChatState :=
      { st with messages := st.messages ++ [userMessage], userData := updated,
                currentInput := "" }
    if questions.length - 1 ≤ st.currentQuestionIndex then
      submitUserData updated now { st2 with isComplete := true }
    else
      ({ st2 with currentQuestionIndex := st.currentQuestionIndex + 1 }, [])

end Five

/-- A submission whose input trims to empty returns before doing anything
(seven-question variant). -/
lemma seven_submit_silent (now : Nat) (oc : Seven.SubmitOutcome) (st : Seven.ChatState)
    (h : jsTrim st.currentInput = "") :
    Seven.handleSubmit now oc st = (st, []) := by
  unfold Seven.handleSubmit
  simp [h]

/-- A nonempty submission failing the current validator only emits the
error notification (seven-question variant). -/
lemma seven_submit_rejected (now : Nat) (oc : Seven.SubmitOutcome) (st : Seven.ChatState)
    (h1 : jsTrim st.currentInput ≠ "")
    (h2 : Seven.validateResponse st.currentInput st.currentQuestionIndex = false) :
    Seven.handleSubmit now oc st = (st, [Toast.error "Please provide a valid response"]) := by
  unfold Seven.handleSubmit
  simp [h1, h2]

/-- A submission whose input trims to empty returns before doing anything
(five-question variant). -/
lemma five_submit_silent (now : Nat) (st : Five.ChatState)
    (h : jsTrim st.currentInput = "") :
    Five.handleSubmit now st = (st, []) := by
  unfold Five.handleSubmit
  simp [h]

/-- A nonempty submission failing the current validator only emits the
error notification (five-question variant). -/
lemma five_submit_rejected (now : Nat) (st : Five.ChatState)
    (h1 : jsTrim st.currentInput ≠ "")
    (h2 : Five.validateResponse st.currentInput st.currentQuestionIndex = false) :
    Five.handleSubmit now st = (st, [Toast.error "Please provide a valid response"]) := by
  unfold Five.handleSubmit
  simp [h1, h2]

/-- Whatever the validation verdict, a rejected or silent submission leaves
the seven-question state untouched. -/
lemma seven_submit_invalid_state (now : Nat) (oc : Seven.SubmitOutcome) (st : Seven.ChatState)
    (h : Seven.validateResponse st.currentInput st.currentQuestionIndex = false) :
    (Seven.handleSubmit now oc st).1 = st := by
  by_cases he : jsTrim st.currentInput = ""
  · rw [seven_submit_silent now oc st he]
  · rw [seven_submit_rejected now oc st he h]

/-- Whatever the validation verdict, a rejected or silent submission leaves
the five-question state untouched. -/
lemma five_submit_invalid_state (now : Nat) (st : Five.ChatState)
    (h : Five.validateResponse st.currentInput st.currentQuestionIndex = false) :
    (Five.handleSubmit now st).1 = st := by
  by_cases he : jsTrim st.currentInput = ""
  · rw [five_submit_silent now st he]
  · rw [five_submit_rejected now st he h]

/-- An accepted answer at a non-final slot appends the user message,
commits the answer, clears the input and selects the next question
(seven-question variant). -/
lemma seven_submit_accepted_notlast (now : Nat) (oc : Seven.SubmitOutcome) (st : Seven.ChatState)
    (h1 : jsTrim st.currentInput ≠ "")
    (h2 : Seven.validateResponse st.currentInput st.currentQuestionIndex = true)
    (h3 : st.currentQuestionIndex < 6) :
    Seven.handleSubmit now oc st =
      ({ st with
           messages := st.messages ++
             [{ id := toString now, type := Role.user, content := st.currentInput,
                timestamp := now, questionIndex := some st.currentQuestionIndex }],
           userData := Seven.processResponse st.currentInput st.currentQuestionIndex st.userData,
           currentInput := "", showOptions := false,
           currentQuestionIndex := st.currentQuestionIndex + 1 }, []) := by
  unfold Seven.handleSubmit
  rw [if_neg h1, if_neg (by simp [h2]), if_neg (by simp [Seven.questions]; omega)]

/-- An accepted answer at the final slot appends the user message, commits
the answer, flags the conversation complete and hands over to the
submission routine (seven-question variant). -/
lemma seven_submit_accepted_last (now : Nat) (oc : Seven.SubmitOutcome) (st : Seven.ChatState)
    (h1 : jsTrim st.currentInput ≠ "")
    (h2 : Seven.validateResponse st.currentInput st.currentQuestionIndex = true)
    (h3 : 6 ≤ st.currentQuestionIndex) :
    Seven.handleSubmit now oc st =
      Seven.submitUserData
        (Seven.processResponse st.currentInput st.currentQuestionIndex st.userData) oc now
        { st with
            messages := st.messages ++
              [{ id := toString now, type := Role.user, content := st.currentInput,
                 timestamp := now, questionIndex := some st.currentQuestionIndex }],
            userData := Seven.processResponse st.currentInput st.currentQuestionIndex st.userData,
            currentInput := "", showOptions := false, isComplete := true } := by
  unfold Seven.handleSubmit
  rw [if_neg h1, if_neg (by simp [h2]), if_pos (by simp [Seven.questions]; omega)]

/-- C4 counterexample: at the name slot the input "Al" (length 2) passes
validation in both variants, and submitting it advances the conversation
to the next question; the claim that "Al" is rejected is false on the
code. -/
theorem c4_name_al_counterexample :
    Seven.validateResponse "Al" 0 = true ∧
    Five.validateResponse "Al" 0 = true ∧
    (Seven.handleSubmit 5 Seven.SubmitOutcome.backendDown
        { currentInput := "Al" }).1.currentQuestionIndex = 1 ∧
    (Five.handleSubmit 5 { currentInput := "Al" }).1.currentQuestionIndex = 1 := by
  decide

/-- C4 (amended): at the name slot a one-character input such as "A" is
rejected (the minimum length is 2) and the conversation does not advance,
while both "Al" and "Ana" are accepted: the answer is appended to the log,
committed to the name slot, and the conversation advances to the next
question. -/
theorem c4_name_minimum_length (st : Seven.ChatState) (now : Nat) (oc : Seven.SubmitOutcome)
    (hq : st.currentQuestionIndex = 0) :
    (st.currentInput = "A" →
       Seven.handleSubmit now oc st = (st, [Toast.error "Please provide a valid response"])) ∧
    ((st.currentInput = "Al" ∨ st.currentInput = "Ana") →
       (Seven.handleSubmit now oc st).1.currentQuestionIndex = 1 ∧
       (Seven.handleSubmit now oc st).1.userData.name = some st.currentInput ∧
       (Seven.handleSubmit now oc st).1.messages
         = st.messages ++ [{ id := toString now, type := Role.user, content := st.currentInput,
                             timestamp := now, questionIndex := some 0 }]) := by
  constructor
  · intro hin
    apply seven_submit_rejected
    · rw [hin]; decide
    · rw [hin, hq]; decide
  · intro hin
    have hval : Seven.validateResponse st.currentInput st.currentQuestionIndex = true := by
      rcases hin with hin | hin <;> rw [hin, hq] <;> decide
    have hne : jsTrim st.currentInput ≠ "" := by
      rcases hin with hin | hin <;> rw [hin] <;> decide
    have hlt : st.currentQuestionIndex < 6 := by omega
    rw [seven_submit_accepted_notlast now oc st hne hval hlt]
    refine ⟨by simp [hq], ?_, by simp [hq]⟩
    rcases hin with hin | hin <;> rw [hin, hq] <;>
      simp [Seven.processResponse] <;> decide

/-- C4 witness: the amended theorem evaluated at a concrete state with
input "Ana" at the name slot. -/
theorem c4_name_minimum_length_witness :
    (Seven.handleSubmit 3 Seven.SubmitOutcome.backendDown
        { currentInput := "Ana" }).1.currentQuestionIndex = 1 ∧
    (Seven.handleSubmit 3 Seven.SubmitOutcome.backendDown
        { currentInput := "Ana" }).1.userData.name = some "Ana" :=
  have h := (c4_name_minimum_length { currentInput := "Ana" } 3
    Seven.SubmitOutcome.backendDown rfl).2 (Or.inr rfl)
  ⟨h.1, h.2.1⟩

/-- C6: editing a committed answer with a replacement that trims to empty
or fails the recorded slot validator emits the error notification and
performs no mutation: the returned state is exactly the previous one. -/
theorem c6_invalid_edit_no_mutation (st : Seven.ChatState) (messageId : String) (qi : Nat)
    (h : jsTrim st.editValue = "" ∨ Seven.validateResponse st.editValue qi = false) :
    Seven.saveEdit messageId (some qi) st
      = (st, [Toast.error "Please provide a valid response"]) := by
  unfold Seven.saveEdit
  rcases h with h | h
  · simp [h]
  · by_cases he : jsTrim st.editValue = "" <;> simp [he, h]

/-- C6 witness: an edit of the name answer to the too-short value "B" is
rejected and the state is returned unchanged. -/
theorem c6_invalid_edit_no_mutation_witness :
    Seven.saveEdit "10" (some 0)
        { userData := { name := some "Bob" }, editValue := "B" }
      = ({ userData := { name := some "Bob" }, editValue := "B" },
         [Toast.error "Please provide a valid response"]) :=
  c6_invalid_edit_no_mutation
    { userData := { name := some "Bob" }, editValue := "B" } "10" 0 (Or.inr (by decide))

/-- C7: in both variants, a nonempty input that fails the current slot
validator only emits the transient error notification; the state — log,
question index, accumulator, and the typed input — is returned exactly
unchanged. -/
theorem c7_validation_failure_stable (st7 : Seven.ChatState) (st5 : Five.ChatState)
    (now : Nat) (oc : Seven.SubmitOutcome)
    (h7a : jsTrim st7.currentInput ≠ "")
    (h7b : Seven.validateResponse st7.currentInput st7.currentQuestionIndex = false)
    (h5a : jsTrim st5.currentInput ≠ "")
    (h5b : Five.validateResponse st5.currentInput st5.currentQuestionIndex = false) :
    Seven.handleSubmit now oc st7 = (st7, [Toast.error "Please provide a valid response"]) ∧
    Five.handleSubmit now st5 = (st5, [Toast.error "Please provide a valid response"]) :=
  ⟨seven_submit_rejected now oc st7 h7a h7b, five_submit_rejected now st5 h5a h5b⟩

/-- C7 witness: an out-of-range job level in the seven-question variant and
a comma-free location in the five-question variant are both rejected with
the state unchanged. -/
theorem c7_validation_failure_stable_witness :
    Seven.handleSubmit 1 Seven.SubmitOutcome.backendDown
        { currentInput := "abc", currentQuestionIndex := 3 }
      = ({ currentInput := "abc", currentQuestionIndex := 3 },
         [Toast.error "Please provide a valid response"]) ∧
    Five.handleSubmit 1 { currentInput := "Austin", currentQuestionIndex := 2 }
      = ({ currentInput := "Austin", currentQuestionIndex := 2 },
         [Toast.error "Please provide a valid response"]) :=
  c7_validation_failure_stable
    { currentInput := "abc", currentQuestionIndex := 3 }
    { currentInput := "Austin", currentQuestionIndex := 2 }
    1 Seven.SubmitOutcome.backendDown (by decide) (by decide) (by decide) (by decide)

/-- C8 counterexample: the input " Beginner " (with surrounding spaces) is
accepted at the certification-level slot although it is not literally a
member of the option set: validation compares the trimmed input, so the
claim as stated (acceptance iff the input itself exactly matches a member)
fails. -/
theorem c8_enum_untrimmed_counterexample :
    Seven.validateResponse " Beginner " 4 = true ∧
    Seven.certificationOptions.contains " Beginner " = false := by
  decide

/-- C8 (amended): at the certification-level and proficiency-level slots an
input is accepted iff its trimmed form exactly matches one member of the
fixed option set, case-sensitively, with no fuzzy matching; every other
trimmed form is rejected. -/
theorem c8_enum_exact_match (s : String) :
    (Seven.validateResponse s 4 = true ↔ jsTrim s ∈ Seven.certificationOptions) ∧
    (Seven.validateResponse s 5 = true ↔ jsTrim s ∈ Seven.proficiencyOptions) := by
  constructor <;>
    simp [Seven.validateResponse, List.contains, List.elem_iff]

/-- C8 witness: lowercase and truncated variants are rejected while an exact
member is accepted, via the amended theorem. -/
theorem c8_enum_exact_match_witness :
    Seven.validateResponse "Professional" 5 = true :=
  (c8_enum_exact_match "Professional").2.mpr (by decide)

/-- C9: any input accepted at the skills slot (exactly the strings that are
nonempty after trimming) commits as the input split on commas, each part
trimmed and empty parts dropped; in particular "React, Go" commits as
["React", "Go"]. -/
theorem c9_skills_commit (s : String) (ud : Seven.UserData)
    (_h : Seven.validateResponse s 2 = true) :
    (Seven.processResponse s 2 ud).skills
        = some (((jsSplitComma s).map jsTrim).filter (fun part => part ≠ "")) ∧
    (Seven.processResponse "React, Go" 2 ud).skills = some ["React", "Go"] ∧
    (Seven.validateResponse s 2 = true ↔ jsTrim s ≠ "") := by
  refine ⟨rfl, by rfl, ?_⟩
  simp only [Seven.validateResponse, jsLength, decide_eq_true_eq]
  constructor
  · intro hlen hemp
    rw [hemp] at hlen
    simp at hlen
  · intro hne
    rcases hl : (jsTrim s).toList with _ | ⟨c, cs⟩
    · exact absurd (String.ext_iff.mpr (by simpa [String.toList] using hl)) hne
    · simp [hl]

/-- C9 witness: the theorem evaluated at the concrete input "React, Go". -/
theorem c9_skills_commit_witness :
    (Seven.processResponse "React, Go" 2 {}).skills = some ["React", "Go"] :=
  (c9_skills_commit "React, Go" {} (by decide)).2.1

/-- C10 (implicit): in both variants, submitting an input that is empty or
only whitespace is a silent no-op: the handler returns the state exactly
unchanged and emits no notification at all, unlike a nonempty invalid
input. -/
theorem c10_whitespace_silent_noop (st7 : Seven.ChatState) (st5 : Five.ChatState)
    (now : Nat) (oc : Seven.SubmitOutcome)
    (h7 : jsTrim st7.currentInput = "") (h5 : jsTrim st5.currentInput = "") :
    Seven.handleSubmit now oc st7 = (st7, []) ∧
    Five.handleSubmit now st5 = (st5, []) :=
  ⟨seven_submit_silent now oc st7 h7, five_submit_silent now st5 h5⟩

/-- C10 witness: a whitespace-only input is a silent no-op at a concrete
state in both variants. -/
theorem c10_whitespace_silent_noop_witness :
    Seven.handleSubmit 2 Seven.SubmitOutcome.backendDown
        { currentInput := "   ", currentQuestionIndex := 3 }
      = ({ currentInput := "   ", currentQuestionIndex := 3 }, []) ∧
    Five.handleSubmit 2 { currentInput := " " } = ({ currentInput := " " }, []) :=
  c10_whitespace_silent_noop
    { currentInput := "   ", currentQuestionIndex := 3 } { currentInput := " " }
    2 Seven.SubmitOutcome.backendDown (by decide) (by decide)

/-- C1: at every numeric slot — experience years (0-50, five-question
variant), job level (1-9) and profile count (1-5, seven-question variant)
— an input whose trimmed form does not parse to an integer inside the
slot range is rejected by validation, and a submission failing validation
leaves the state (log, question index, accumulator) exactly unchanged in
either variant; an in-range input is accepted and the parsed value is
stored exactly as parsed, never clamped. -/
theorem c1_numeric_slot_validation (s : String) (v : Int) (now : Nat) (oc : Seven.SubmitOutcome)
    (st7 : Seven.ChatState) (st5 : Five.ChatState) (ud7 : Seven.UserData) (ud5 : Five.UserData) :
    (parsesIntInRange 1 9 s = false → Seven.validateResponse s 3 = false) ∧
    (parsesIntInRange 1 5 s = false → Seven.validateResponse s 6 = false) ∧
    (parsesIntInRange 0 50 s = false → Five.validateResponse s 3 = false) ∧
    (Seven.validateResponse st7.currentInput st7.currentQuestionIndex = false →
       (Seven.handleSubmit now oc st7).1 = st7) ∧
    (Five.validateResponse st5.currentInput st5.currentQuestionIndex = false →
       (Five.handleSubmit now st5).1 = st5) ∧
    (parseIntJS (jsTrim s) = some v → 1 ≤ v → v ≤ 9 →
       Seven.validateResponse s 3 = true ∧ (Seven.processResponse s 3 ud7).jobLevel = some v) ∧
    (parseIntJS (jsTrim s) = some v → 1 ≤ v → v ≤ 5 →
       Seven.validateResponse s 6 = true ∧ (Seven.processResponse s 6 ud7).profileCount = some v) ∧
    (parseIntJS (jsTrim s) = some v → 0 ≤ v → v ≤ 50 →
       Five.validateResponse s 3 = true ∧ (Five.processResponse s 3 ud5).yearsExperience = some v) := by
  refine ⟨fun h => h, fun h => h, fun h => h,
    seven_submit_invalid_state now oc st7, five_submit_invalid_state now st5, ?_, ?_, ?_⟩ <;>
  · intro hp h1 h2
    refine ⟨?_, by simp [Seven.processResponse, Five.processResponse, hp]⟩
    simp [Seven.validateResponse, Five.validateResponse, hp]
    omega

/-- C1 witness: concrete rejections ("10" at job level, "6" at profile
count, "51" at experience years), a concrete unchanged state on rejection
in both variants, and concrete unclamped in-range commits. -/
theorem c1_numeric_slot_validation_witness :
    Seven.validateResponse "10" 3 = false ∧
    Seven.validateResponse "6" 6 = false ∧
    Five.validateResponse "51" 3 = false ∧
    (Seven.handleSubmit 0 Seven.SubmitOutcome.backendDown
        { currentInput := "10", currentQuestionIndex := 3 }).1
      = { currentInput := "10", currentQuestionIndex := 3 } ∧
    (Five.handleSubmit 0 { currentInput := "-1", currentQuestionIndex := 3 }).1
      = { currentInput := "-1", currentQuestionIndex := 3 } ∧
    (Seven.processResponse "7" 3 {}).jobLevel = some 7 ∧
    (Seven.processResponse " 3 " 6 {}).profileCount = some 3 ∧
    (Five.processResponse "50" 3 {}).yearsExperience = some 50 := by
  have base := c1_numeric_slot_validation "10" 7 0 Seven.SubmitOutcome.backendDown
    { currentInput := "10", currentQuestionIndex := 3 }
    { currentInput := "-1", currentQuestionIndex := 3 } {} {}
  have h6 := c1_numeric_slot_validation "6" 6 0 Seven.SubmitOutcome.backendDown {} {} {} {}
  have h51 := c1_numeric_slot_validation "51" 51 0 Seven.SubmitOutcome.backendDown {} {} {} {}
  have hc7 := c1_numeric_slot_validation "7" 7 0 Seven.SubmitOutcome.backendDown {} {} {} {}
  have hc3 := c1_numeric_slot_validation " 3 " 3 0 Seven.SubmitOutcome.backendDown {} {} {} {}
  have hc50 := c1_numeric_slot_validation "50" 50 0 Seven.SubmitOutcome.backendDown {} {} {} {}
  exact ⟨base.1 (by decide), h6.2.1 (by decide), h51.2.2.1 (by decide),
    base.2.2.2.1 (by decide), base.2.2.2.2.1 (by decide),
    (hc7.2.2.2.2.2.1 (by decide) (by decide) (by decide)).2,
    (hc3.2.2.2.2.2.2.1 (by decide) (by decide) (by decide)).2,
    (hc50.2.2.2.2.2.2.2 (by decide) (by decide) (by decide)).2⟩

/-- C2: when the backend call fails, the controller installs the first
`profileCount` entries of the fixed five-profile sample list, appends a
success-style confirmation message citing exactly that number of results,
and emits only a success notification — the failure is never surfaced to
the user as an error. -/
theorem c2_fallback_on_backend_failure (data : Seven.UserData) (st : Seven.ChatState)
    (c : Int) (now : Nat)
    (hc : data.profileCount = some c) (h1 : 1 ≤ c) (h5 : c ≤ 5) :
    (Seven.submitUserData data Seven.SubmitOutcome.backendDown now st).1.foundMatches
        = Seven.mockProfiles.take c.toNat ∧
    (Seven.submitUserData data Seven.SubmitOutcome.backendDown now st).1.foundMatches.length
        = c.toNat ∧
    (Seven.submitUserData data Seven.SubmitOutcome.backendDown now st).1.messages
        = st.messages ++ [botMessage now (Seven.successContent c.toNat)] ∧
    (Seven.submitUserData data Seven.SubmitOutcome.backendDown now st).2
        = [Toast.success "Profile matches found!"] := by
  have hslice : sliceTo c Seven.mockProfiles = Seven.mockProfiles.take c.toNat := by
    unfold sliceTo
    rw [if_neg (by omega)]
  have hlen5 : Seven.mockProfiles.length = 5 := rfl
  have hlen : (Seven.mockProfiles.take c.toNat).length = c.toNat := by
    rw [List.length_take, hlen5]
    omega
  unfold Seven.submitUserData
  simp [hc, hslice, hlen]

/-- C2 witness: a requested count of 2 yields exactly the first 2 of the
fixed sample set, with the success confirmation and no error. -/
theorem c2_fallback_on_backend_failure_witness :
    (Seven.submitUserData { profileCount := some 2 } Seven.SubmitOutcome.backendDown 7
        {}).1.foundMatches
      = Seven.mockProfiles.take 2 ∧
    (Seven.submitUserData { profileCount := some 2 } Seven.SubmitOutcome.backendDown 7
        {}).1.foundMatches.length = 2 ∧
    (Seven.submitUserData { profileCount := some 2 } Seven.SubmitOutcome.backendDown 7 {}).2
      = [Toast.success "Profile matches found!"] :=
  have h := c2_fallback_on_backend_failure { profileCount := some 2 } {} 2 7 rfl
    (by decide) (by decide)
  ⟨h.1, h.2.1, h.2.2.2⟩

/-- A state sitting at the final (profile-count) slot with a fully
collected accumulator and the answer "3" typed, used to evaluate the
submission path on concrete input. -/
def lastSlotState : Seven.ChatState :=
  { messages := [botMessage 0 "Select profile count (1-5):"],
    currentInput := "3", currentQuestionIndex := 6,
    userData := { name := some "Ana", jobRole := some "Engineer", skills := some ["React"],
                  jobLevel := some 7, certificationLevel := some "None",
                  proficiencyLevel := some "Beginner" } }

/-- C3 counterexample: on an unexpected submission exception the outer
catch only emits the transient error notification — but the conversation
was already flagged complete when the final answer was accepted (before
the submission call), so it does not remain in a pre-complete state as the
claim asserts. -/
theorem c3_completion_flag_counterexample :
    (Seven.handleSubmit 9 Seven.SubmitOutcome.unexpected lastSlotState).1.isComplete = true ∧
    (Seven.handleSubmit 9 Seven.SubmitOutcome.unexpected lastSlotState).2
      = [Toast.error "Failed to find matches. Please try again."] := by
  decide

/-- C3 (amended): when an unexpected exception occurs during submission
processing, a transient error notification is surfaced, no matches and no
confirmation message are rendered, the loading flag is cleared and no
retry happens — but the conversation has already been flagged complete by
the accepted final answer, so input stays disabled and the user must reset
to proceed. -/
theorem c3_unexpected_failure_behaviour (st : Seven.ChatState) (now : Nat)
    (hq : st.currentQuestionIndex = 6)
    (hne : jsTrim st.currentInput ≠ "")
    (hval : Seven.validateResponse st.currentInput st.currentQuestionIndex = true) :
    (Seven.handleSubmit now Seven.SubmitOutcome.unexpected st).2
        = [Toast.error "Failed to find matches. Please try again."] ∧
    (Seven.handleSubmit now Seven.SubmitOutcome.unexpected st).1.isComplete = true ∧
    (Seven.handleSubmit now Seven.SubmitOutcome.unexpected st).1.foundMatches = st.foundMatches ∧
    (Seven.handleSubmit now Seven.SubmitOutcome.unexpected st).1.isLoading = false ∧
    (Seven.handleSubmit now Seven.SubmitOutcome.unexpected st).1.messages
        = st.messages ++ [{ id := toString now, type := Role.user, content := st.currentInput,
                            timestamp := now, questionIndex := some st.currentQuestionIndex }] := by
  rw [seven_submit_accepted_last now Seven.SubmitOutcome.unexpected st hne hval (by omega)]
  unfold Seven.submitUserData
  simp

/-- C3 witness: the amended theorem evaluated at the concrete final-slot
state. -/
theorem c3_unexpected_failure_behaviour_witness :
    (Seven.handleSubmit 11 Seven.SubmitOutcome.unexpected lastSlotState).2
        = [Toast.error "Failed to find matches. Please try again."] ∧
    (Seven.handleSubmit 11 Seven.SubmitOutcome.unexpected lastSlotState).1.isComplete = true ∧
    (Seven.handleSubmit 11 Seven.SubmitOutcome.unexpected lastSlotState).1.foundMatches = [] :=
  have h := c3_unexpected_failure_behaviour lastSlotState 11 rfl (by decide) (by decide)
  ⟨h.1, h.2.1, h.2.2.1⟩

/-- A valid edit reduces to: replace the content of every message carrying
the edited id, recommit the slot, leave edit mode, report success. -/
lemma seven_saveEdit_valid (st : Seven.ChatState) (messageId : String) (qi : Nat)
    (hne : jsTrim st.editValue ≠ "")
    (hval : Seven.validateResponse st.editValue qi = true) :
    Seven.saveEdit messageId (some qi) st =
      ({ st with
           messages := st.messages.map
             (fun msg => if msg.id = messageId then { msg with content := st.editValue } else msg),
           userData := Seven.processResponse st.editValue qi st.userData,
           editingMessageId := none, editValue := "" },
       [Toast.success "Response updated!"]) := by
  unfold Seven.saveEdit
  simp [hne, hval]

/-- When ids are unique, replacing by id equals a positional `set` at the
position of that id: identity and position are preserved and every other entry
is untouched. -/
lemma map_replace_eq_set (l : List ChatMessage) (p : Nat) (hp : p < l.length) (ev : String)
    (huniq : ∀ (j : Nat) (hj : j < l.length), j ≠ p →
        (l.get ⟨j, hj⟩).id ≠ (l.get ⟨p, hp⟩).id) :
    l.map (fun msg => if msg.id = (l.get ⟨p, hp⟩).id then { msg with content := ev } else msg)
      = l.set p ({ l.get ⟨p, hp⟩ with content := ev }) := by
  apply List.ext_get
  · simp
  intro i h1 h2
  simp only [List.get_eq_getElem, List.getElem_map, List.getElem_set] at *
  by_cases hip : p = i
  · subst hip
    rw [if_pos rfl, if_pos rfl]
  · rw [if_neg hip, if_neg (huniq i (by simpa using h1) (fun h => hip h.symm))]

/-- Committing a response into slot `qi` changes no other accumulator
slot. -/
lemma slotOf_processResponse_ne (ud : Seven.UserData) (r : String) (qi j : Nat)
    (h7 : qi < 7) (hne : j ≠ qi) :
    Seven.slotOf (Seven.processResponse r qi ud) j = Seven.slotOf ud j := by
  interval_cases qi <;>
    simp_all [Seven.slotOf, Seven.processResponse]

/-- C5: editing the committed user answer at position `p` (recorded slot
index `qi`) with a replacement that passes the slot validator replaces
exactly the text of that message in place — the log equals a positional `set`
preserving id and position and leaving every other message unchanged —
recomputes accumulator slot `qi` from the edited text, leaves every other
slot unchanged, and reports success. -/
theorem c5_valid_edit_in_place (st : Seven.ChatState) (p qi : Nat) (hp : p < st.messages.length)
    (_hqi : (st.messages.get ⟨p, hp⟩).questionIndex = some qi) (hq7 : qi < 7)
    (hnodup : (st.messages.map ChatMessage.id).Nodup)
    (hne : jsTrim st.editValue ≠ "")
    (hval : Seven.validateResponse st.editValue qi = true) :
    (Seven.saveEdit (st.messages.get ⟨p, hp⟩).id (some qi) st).1.messages
        = st.messages.set p ({ st.messages.get ⟨p, hp⟩ with content := st.editValue }) ∧
    (Seven.saveEdit (st.messages.get ⟨p, hp⟩).id (some qi) st).1.userData
        = Seven.processResponse st.editValue qi st.userData ∧
    (∀ j, j ≠ qi →
        Seven.slotOf (Seven.saveEdit (st.messages.get ⟨p, hp⟩).id (some qi) st).1.userData j
          = Seven.slotOf st.userData j) ∧
    (Seven.saveEdit (st.messages.get ⟨p, hp⟩).id (some qi) st).2
        = [Toast.success "Response updated!"] := by
  have huniq : ∀ (j : Nat) (hj : j < st.messages.length), j ≠ p →
      (st.messages.get ⟨j, hj⟩).id ≠ (st.messages.get ⟨p, hp⟩).id := by
    intro j hj hjp heq
    have hmap : (st.messages.map ChatMessage.id).get ⟨j, by simpa using hj⟩
        = (st.messages.map ChatMessage.id).get ⟨p, by simpa using hp⟩ := by
      simpa using heq
    have := (List.Nodup.get_inj_iff hnodup).mp hmap
    exact hjp (by simpa using this)
  rw [seven_saveEdit_valid st _ qi hne hval]
  exact ⟨map_replace_eq_set st.messages p hp st.editValue huniq, rfl,
    fun j hj => slotOf_processResponse_ne st.userData st.editValue qi j hq7 hj, rfl⟩

/-- A two-message conversation (bot question, then the committed name
answer "Bob") with the replacement "Robert" pending in edit mode. -/
def editFixtureState : Seven.ChatState :=
  { messages := [botMessage 0 "What is your name?",
                 { id := "10", type := Role.user, content := "Bob", timestamp := 10,
                   questionIndex := some 0 }],
    currentQuestionIndex := 1,
    userData := { name := some "Bob" },
    editingMessageId := some "10", editValue := "Robert" }

/-- C5 witness: saving the edit "Robert" over the committed name answer at
position 1 updates exactly that log entry, recomputes the name slot, and
leaves slot 3 (job level) untouched. -/
theorem c5_valid_edit_in_place_witness :
    (Seven.saveEdit "10" (some 0) editFixtureState).1.messages
        = editFixtureState.messages.set 1
            ({ id := "10", type := Role.user, content := "Robert", timestamp := 10,
               questionIndex := some 0 }) ∧
    (Seven.saveEdit "10" (some 0) editFixtureState).1.userData
        = Seven.processResponse "Robert" 0 editFixtureState.userData ∧
    Seven.slotOf (Seven.saveEdit "10" (some 0) editFixtureState).1.userData 3
        = Seven.slotOf editFixtureState.userData 3 :=
  have h := c5_valid_edit_in_place editFixtureState 1 0 (by decide) (by decide) (by decide)
    (by decide) (by decide) (by decide)
  ⟨h.1, h.2.1, h.2.2.1 3 (by decide)⟩
